import Mathlib

/-!
Verification of the backend-process supervisor of the episensor/app-framework
desktop templates.  Two source variants are embedded:

* `src/app-templates/basic-desktop-app/src-tauri/src/server.rs` — the Tauri
  command supervisor (`start_backend_server`, `stop_backend_server`,
  `check_server_status`) over a `Mutex<Option<Child>>`;
* `src/desktop/rust-templates/src/main.rs` — the polling variant (health-poll
  loop with a 30 s timeout, atomic readiness flag, `get_logs`, `clear_logs`).

External effects (filesystem, OS spawn, HTTP, curl) are passed in as explicit
oracle values describing the outcome the OS / network would produce, so every
function is a pure Lean function of the source's state plus those oracles.
-/

/-- The three compile-time targets of the `cfg(target_os = ...)` blocks in
`server.rs`. -/
inductive TargetOs
  | macos
  | windows
  | linux
  deriving DecidableEq, Repr

/-- Platform-specific sidecar binary file name (`server.rs` lines 24-31). -/
def serverBinaryName : TargetOs → String
  | .macos => "server-macos-arm64"
  | .windows => "server-win-x64.exe"
  | .linux => "server-linux-x64"

/-- Resolved backend executable path: the app resource directory joined with
`server` and the platform binary name (`server.rs` lines 18-31). -/
def serverBinaryPath (resourceDir : String) (os : TargetOs) : String :=
  resourceDir ++ "/server/" ++ serverBinaryName os

/-- The outside world as `start_backend_server` observes it: where the app is
installed, whether the resolved binary exists on disk, and what the OS answers
to the one `spawn()` call (`some pid` on success, `none` with `spawnErrMsg`
the error text on failure). -/
structure StartWorld where
  resourceDir : String
  os : TargetOs
  binaryExists : Bool
  spawnResult : Option Nat
  spawnErrMsg : String
  deriving DecidableEq, Repr

/-- Everything observable about one `start_backend_server` call: the process
record left in the mutex, the returned `Result<String, String>`, the
environment given to the spawned `Command` when one was launched (`none` when
the code never reached `Command::new`), and how many OS processes the call
created. -/
structure StartResult where
  state : Option Nat
  result : Except String String
  spawnEnv : Option (List (String × String))
  spawnedCount : Nat
  deriving Repr

/-- The fixed environment passed to the sidecar `Command`
(`server.rs` lines 45-48). -/
def startEnvVars : List (String × String) :=
  [("NODE_ENV", "production"), ("PORT", "3005"),
   ("HOST", "127.0.0.1"), ("TAURI", "1")]

/-- Shallow embedding of `start_backend_server` (`server.rs` lines 10-64).
The mutex-guarded `Option<Child>` is the `process` argument; the call returns
early with `Ok` if it is `some`, errors if the binary is missing, then spawns
and records the child.  The fixed 3-second sleep before returning has no
observable effect in this model and is elided. -/
def start_backend_server (w : StartWorld) (process : Option Nat) : StartResult :=
  if process.isSome then
    { state := process, result := .ok "Server already running",
      spawnEnv := none, spawnedCount := 0 }
  else if !w.binaryExists then
    { state := process,
      result := .error ("Server binary not found at: "
        ++ serverBinaryPath w.resourceDir w.os),
      spawnEnv := none, spawnedCount := 0 }
  else
    match w.spawnResult with
    | none =>
        { state := process,
          result := .error ("Failed to start server at "
            ++ serverBinaryPath w.resourceDir w.os ++ ": " ++ w.spawnErrMsg),
          spawnEnv := some startEnvVars, spawnedCount := 0 }
    | some pid =>
        { state := some pid, result := .ok "Server started on port 3005",
          spawnEnv := some startEnvVars, spawnedCount := 1 }

/-- Everything observable about one `stop_backend_server` call: the process
record left in the mutex, the returned result, and whether a kill signal was
sent. -/
structure StopResult where
  state : Option Nat
  result : Except String String
  killSent : Bool
  deriving Repr

/-- Shallow embedding of `stop_backend_server` (`server.rs` lines 67-76).
`process.take()` removes the record before `child.kill()` runs; `killResult`
is the OS outcome of that kill (`.error e` carries the error text). -/
def stop_backend_server (killResult : Except String Unit) (process : Option Nat) :
    StopResult :=
  match process with
  | some _ =>
      match killResult with
      | .ok _ => { state := none, result := .ok "Server stopped", killSent := true }
      | .error e =>
          { state := none, result := .error ("Failed to stop server: " ++ e),
            killSent := true }
  | none => { state := none, result := .ok "Server not running", killSent := false }

/-- The argument list `check_server_status` hands to `curl`
(`server.rs` lines 81-83). -/
def checkCurlArgs : List String := ["-s", "http://localhost:3005/api/hello"]

/-- Shallow embedding of `check_server_status` (`server.rs` lines 79-88).
`curlOutput` is the outcome of running the curl command: `.error e` when the
OS could not run it, `.ok b` with `b` the value of `output.status.success()`.
The function reads no supervisor state — it takes none. -/
def check_server_status (curlOutput : Except String Bool) : Except String Bool :=
  match curlOutput with
  | .error e => .error ("Failed to check server: " ++ e)
  | .ok statusSuccess => .ok statusSuccess

/-- curl options that would bound the request time.  Modelled from the spec:
the spec's sentence that the status probe carries "a short timeout" would
require one of these flags on the curl command line. -/
def curlTimeoutFlags : List String := ["--max-time", "-m", "--connect-timeout"]

/-- Modelled from the spec: the probe command line sets an explicit timeout. -/
def probeHasTimeout : Prop := ∃ a ∈ checkCurlArgs, a ∈ curlTimeoutFlags

instance : Decidable probeHasTimeout := by
  unfold probeHasTimeout; infer_instance

/-- A concrete world used by witnesses: binary present, spawn succeeds with
pid 7. -/
def demoWorld : StartWorld :=
  { resourceDir := "/opt/app", os := .linux, binaryExists := true,
    spawnResult := some 7, spawnErrMsg := "" }

/-- Environment the rust-templates variant passes to its backend spawn
(`desktop/rust-templates/src/main.rs` lines 54-55): only a production-mode
pair and a desktop (embedded-run) marker. -/
def templateSpawnEnv : List (String × String) :=
  [("NODE_ENV", "production"), ("DESKTOP", "true")]

/-- `reqwest::StatusCode::is_success()`: the status code is in the 2xx
range. -/
def statusIsSuccess (status : Nat) : Bool := 200 ≤ status && status < 300

/-- An HTTP response as the log commands observe it: the status code and the
outcome of parsing the body as JSON (`.ok v` carries the parsed value,
abstracted by its rendering; `.error e` the parse-error text). -/
structure HttpResp where
  status : Nat
  jsonBody : Except String String
  deriving Repr

/-- URL queried by `get_logs` (`desktop/rust-templates/src/main.rs` line 140). -/
def getLogsUrl : String := "http://localhost:8080/api/logs/entries?limit=1000"

/-- URL posted to by `clear_logs` (`desktop/rust-templates/src/main.rs`
line 159). -/
def clearLogsUrl : String := "http://localhost:8080/api/logs/clear"

/-- Shallow embedding of `get_logs` (`main.rs` lines 136-152).  `resp` is the
transport outcome of the GET: `.error e` when the request itself failed,
`.ok r` the received response.  On a success status the body's JSON parse
outcome is returned as is; otherwise the status is reported as an error. -/
def get_logs (resp : Except String HttpResp) : Except String String :=
  match resp with
  | .error e => .error e
  | .ok r =>
      if statusIsSuccess r.status then r.jsonBody
      else .error ("Failed to fetch logs: " ++ toString r.status)

/-- Shallow embedding of `clear_logs` (`main.rs` lines 156-168). -/
def clear_logs (resp : Except String HttpResp) : Except String Unit :=
  match resp with
  | .error e => .error e
  | .ok r =>
      if statusIsSuccess r.status then .ok ()
      else .error ("Failed to clear logs: " ++ toString r.status)

/-- Candidate API ports probed by the readiness loop (`main.rs` line 66). -/
def pollPorts : List Nat := [8080, 7500, 5000, 3000]

/-- The network as the readiness loop observes it: for iteration `it` and
port `p`, whether the GET on `/api/health` returns a success status, and how
many milliseconds the request takes (the reqwest client caps it at 1000). -/
structure Net where
  ok : Nat → Nat → Bool
  dur : Nat → Nat → Nat

/-- One pass of the inner `for port in &ports` loop (`main.rs` lines 66-81):
first responding port (in list order) and the milliseconds spent; later ports
are not contacted once one succeeds. -/
def probeRound (net : Net) (it : Nat) : List Nat → Option Nat × Nat
  | [] => (none, 0)
  | p :: rest =>
      if net.ok it p then (some p, net.dur it p)
      else ((probeRound net it rest).1, net.dur it p + (probeRound net it rest).2)

/-- Shallow embedding of the readiness-polling loop (`main.rs` lines 61-93).
Arguments: the iteration counter and the elapsed milliseconds since
`start_time` (all time is spent in probes and sleeps).  Each iteration probes
the candidate ports; on a hit it stores `true` into the readiness flag and
breaks; then the elapsed time is checked against the timeout, and otherwise
the thread sleeps 500 ms and loops.  Returns the readiness flag value and the
final elapsed time. -/
def pollLoop (net : Net) (timeout : Nat) (it : Nat) (elapsed : Nat) :
    Bool × Nat :=
  if (probeRound net it pollPorts).1.isSome then
    (true, elapsed + (probeRound net it pollPorts).2)
  else if h : elapsed + (probeRound net it pollPorts).2 > timeout then
    (false, elapsed + (probeRound net it pollPorts).2)
  else
    pollLoop net timeout (it + 1) (elapsed + (probeRound net it pollPorts).2 + 500)
termination_by timeout + 1 - elapsed
decreasing_by omega

/-- The host's startup wait (`main.rs` lines 100-102): spin until the shared
readiness flag is true.  `ready` is the flag's (constant) value once the
polling thread has finished; the result says whether the wait loop has exited
within `n` checks. -/
def waitLoopExits (ready : Bool) : Nat → Bool
  | 0 => false
  | n + 1 => if ready then true else waitLoopExits ready n

/-- A network where nothing ever answers and probes return instantly. -/
def netDown : Net := { ok := fun _ _ => false, dur := fun _ _ => 0 }

/-- A network where nothing ever answers; probes take the full 1 s timeout
except on iteration 6, where they take 750 ms — timed so the loop is still
inside the bound at the 30 s check and then spends a full round. -/
def cexNet : Net :=
  { ok := fun _ _ => false, dur := fun it _ => if it = 6 then 750 else 1000 }

/- ------------------------------------------------------------------ -/
/- Theorems.                                                           -/
/- ------------------------------------------------------------------ -/

/-- Any single start call creates at most one OS process. -/
theorem start_spawnedCount_le (w : StartWorld) (s : Option Nat) :
    (start_backend_server w s).spawnedCount ≤ 1 := by
  cases s <;> by_cases hb : w.binaryExists <;> cases h : w.spawnResult <;>
    simp [start_backend_server, hb, h]

/-- C1: the record is a single `Option` slot, so at most one handle is ever
recorded; a `start_backend_server` call on a non-empty record returns success
immediately, spawns nothing and leaves the record unchanged; and two
successive starts with no intervening stop create at most one OS process. -/
theorem start_idempotent (w1 w2 : StartWorld) (s : Option Nat) :
    ((start_backend_server w1 s).spawnedCount
      + (start_backend_server w2 (start_backend_server w1 s).state).spawnedCount ≤ 1)
    ∧ (s.isSome = true →
        start_backend_server w1 s =
          { state := s, result := .ok "Server already running",
            spawnEnv := none, spawnedCount := 0 }) := by
  constructor
  · cases s with
    | some pid => simp [start_backend_server]
    | none =>
        by_cases hb : w1.binaryExists
        · cases h : w1.spawnResult with
          | some pid => simp [start_backend_server, hb, h]
          | none =>
              simpa [start_backend_server, hb, h] using
                start_spawnedCount_le w2 none
        · simpa [start_backend_server, hb] using
            start_spawnedCount_le w2 none
  · intro hs
    cases s with
    | some pid => simp [start_backend_server]
    | none => simp at hs

/-- Witness for the hypothesis of `start_idempotent`: a concrete occupied
record. -/
theorem start_idempotent_witness :
    (some 5 : Option Nat).isSome = true ∧
    start_backend_server demoWorld (some 5) =
      { state := some 5, result := .ok "Server already running",
        spawnEnv := none, spawnedCount := 0 } :=
  ⟨rfl, (start_idempotent demoWorld demoWorld (some 5)).2 rfl⟩

/-- C3: with the resolved binary absent and an empty record, start returns the
not-found error naming the resolved path, never reaches `Command::new`
(no spawn environment, no process created) and leaves the record empty. -/
theorem start_binary_missing (w : StartWorld) (h : w.binaryExists = false) :
    start_backend_server w none =
      { state := none,
        result := .error ("Server binary not found at: "
          ++ serverBinaryPath w.resourceDir w.os),
        spawnEnv := none, spawnedCount := 0 } := by
  simp [start_backend_server, h]

/-- Witness for `start_binary_missing` at a concrete world with the binary
absent. -/
theorem start_binary_missing_witness :
    ({ resourceDir := "/opt/app", os := .linux, binaryExists := false,
       spawnResult := none, spawnErrMsg := "" } : StartWorld).binaryExists = false ∧
    start_backend_server
      { resourceDir := "/opt/app", os := .linux, binaryExists := false,
        spawnResult := none, spawnErrMsg := "" } none =
      { state := none,
        result := .error "Server binary not found at: /opt/app/server/server-linux-x64",
        spawnEnv := none, spawnedCount := 0 } :=
  ⟨rfl, start_binary_missing _ rfl⟩

/-- C4: stopping with a recorded process sends the kill signal and clears the
record; stopping with an empty record reports "not running" as a success; and
after any stop, a second stop always returns the "not running" success,
whatever the two kill outcomes. -/
theorem stop_then_stop (k1 k2 : Except String Unit) (s : Option Nat) :
    (∀ p, s = some p →
        (stop_backend_server k1 s).killSent = true
        ∧ (stop_backend_server k1 s).state = none)
    ∧ (s = none →
        stop_backend_server k1 s =
          { state := none, result := .ok "Server not running", killSent := false })
    ∧ (stop_backend_server k2 (stop_backend_server k1 s).state).result
        = .ok "Server not running" := by
  refine ⟨?_, ?_, ?_⟩
  · intro p hp
    subst hp
    cases k1 <;> simp [stop_backend_server]
  · intro hs
    subst hs
    simp [stop_backend_server]
  · cases s with
    | some p => cases k1 <;> cases k2 <;> simp [stop_backend_server]
    | none => cases k2 <;> simp [stop_backend_server]

/-- Witness for `stop_then_stop`: concrete occupied and empty records with a
successful kill. -/
theorem stop_then_stop_witness :
    ((some 9 : Option Nat) = some 9) ∧
    (stop_backend_server (.ok ()) (some 9)).killSent = true ∧
    (stop_backend_server (.ok ()) (some 9)).state = none ∧
    (stop_backend_server (.ok ())
        (stop_backend_server (.ok ()) (some 9)).state).result
      = .ok "Server not running" :=
  ⟨rfl,
   ((stop_then_stop (.ok ()) (.ok ()) (some 9)).1 9 rfl).1,
   ((stop_then_stop (.ok ()) (.ok ()) (some 9)).1 9 rfl).2,
   (stop_then_stop (.ok ()) (.ok ()) (some 9)).2.2⟩

/-- C9: every stop leaves the record empty — `process.take()` removes it
before `kill()` runs, so even a failed kill clears it. -/
theorem stop_clears_record (k : Except String Unit) (s : Option Nat) :
    (stop_backend_server k s).state = none := by
  cases s with
  | some p => cases k <;> simp [stop_backend_server]
  | none => simp [stop_backend_server]

/-- C2 counterexample: with the binary present, the spawn succeeding and the
backend never opening the health port (the status probe keeps reporting
non-success), `start_backend_server` still returns success and the record
holds the child — there is no readiness timeout in this variant, only a fixed
sleep, so the claimed failure result and empty record do not occur. -/
theorem start_no_timeout_failure_counterexample :
    (start_backend_server demoWorld none).result = .ok "Server started on port 3005"
    ∧ (start_backend_server demoWorld none).state = some 7
    ∧ check_server_status (.ok false) = .ok false := by
  refine ⟨?_, ?_, rfl⟩ <;> simp [start_backend_server, demoWorld]

/-- C2 amended: when the binary is present and the OS spawn succeeds,
`start_backend_server` returns success unconditionally (after a fixed
3-second sleep) and records the child, whatever the backend's readiness; a
status probe that finds no listener still reports `false`. -/
theorem start_ignores_readiness (w : StartWorld) (pid : Nat)
    (hb : w.binaryExists = true) (hs : w.spawnResult = some pid) :
    (start_backend_server w none).result = .ok "Server started on port 3005"
    ∧ (start_backend_server w none).state = some pid
    ∧ check_server_status (.ok false) = .ok false := by
  refine ⟨?_, ?_, rfl⟩ <;> simp [start_backend_server, hb, hs]

/-- Witness for `start_ignores_readiness` at the concrete demo world. -/
theorem start_ignores_readiness_witness :
    demoWorld.binaryExists = true ∧ demoWorld.spawnResult = some 7 ∧
    ((start_backend_server demoWorld none).result = .ok "Server started on port 3005"
     ∧ (start_backend_server demoWorld none).state = some 7
     ∧ check_server_status (.ok false) = .ok false) :=
  ⟨rfl, rfl, start_ignores_readiness demoWorld 7 rfl rfl⟩

/-- C6 counterexample: the rust-templates spawn site cited by the claim
passes an environment with no listening-port pair and no bind-host pair at
all (its keys are only `NODE_ENV` and `DESKTOP`). -/
theorem template_env_no_port_counterexample :
    (¬ ∃ kv ∈ templateSpawnEnv, kv.1 = "PORT")
    ∧ (¬ ∃ kv ∈ templateSpawnEnv, kv.1 = "HOST") := by
  constructor <;> decide

/-- C6 amended: whenever `start_backend_server` reaches its spawn, the
child's environment is exactly the four fixed pairs — production mode, port
3005, host 127.0.0.1 and the `TAURI=1` embedded marker — while the
rust-templates spawn passes only the production-mode pair and the `DESKTOP`
embedded marker. -/
theorem spawn_env_pairs (w : StartWorld) (s : Option Nat)
    (env : List (String × String))
    (h : (start_backend_server w s).spawnEnv = some env) :
    env = startEnvVars
    ∧ ("NODE_ENV", "production") ∈ env ∧ ("PORT", "3005") ∈ env
    ∧ ("HOST", "127.0.0.1") ∈ env ∧ ("TAURI", "1") ∈ env
    ∧ ("NODE_ENV", "production") ∈ templateSpawnEnv
    ∧ ("DESKTOP", "true") ∈ templateSpawnEnv := by
  have henv : env = startEnvVars := by
    cases s with
    | some pid => simp [start_backend_server] at h
    | none =>
        cases hb : w.binaryExists with
        | false => simp [start_backend_server, hb] at h
        | true =>
            cases hs : w.spawnResult with
            | none =>
                simp [start_backend_server, hb, hs] at h
                exact h.symm
            | some pid =>
                simp [start_backend_server, hb, hs] at h
                exact h.symm
  subst henv
  refine ⟨rfl, ?_, ?_, ?_, ?_, ?_, ?_⟩ <;> simp [startEnvVars, templateSpawnEnv]

/-- Witness for `spawn_env_pairs`: the demo world's start reaches the spawn
with the fixed environment. -/
theorem spawn_env_pairs_witness :
    (start_backend_server demoWorld none).spawnEnv = some startEnvVars ∧
    (startEnvVars = startEnvVars
     ∧ ("NODE_ENV", "production") ∈ startEnvVars ∧ ("PORT", "3005") ∈ startEnvVars
     ∧ ("HOST", "127.0.0.1") ∈ startEnvVars ∧ ("TAURI", "1") ∈ startEnvVars
     ∧ ("NODE_ENV", "production") ∈ templateSpawnEnv
     ∧ ("DESKTOP", "true") ∈ templateSpawnEnv) :=
  ⟨by simp [start_backend_server, demoWorld], spawn_env_pairs demoWorld none
    startEnvVars (by simp [start_backend_server, demoWorld])⟩

/-- C7 counterexample: the probe command line carries no timeout option —
`curl` is invoked with `-s` and the URL only, so the claimed short timeout is
absent. -/
theorem probe_no_timeout_counterexample : ¬ probeHasTimeout := by decide

/-- C7 amended: `check_server_status` returns exactly the probe's success
flag when the probe command ran (true on success status, false otherwise) and
an error when it could not run; it takes no supervisor state at all, so its
result cannot depend on the recorded process — but the curl invocation sets
no timeout. -/
theorem check_status_mirrors_probe (o : Except String Bool) :
    (∀ b, check_server_status o = .ok b ↔ o = .ok b)
    ∧ ((∃ msg, check_server_status o = .error msg) ↔ ∃ e, o = .error e) := by
  cases o <;> simp [check_server_status]

/-- C8 counterexample: a log-retrieval response with success status 200 whose
body fails to parse as JSON makes `get_logs` return an error, so `Ok` is not
equivalent to a success status. -/
theorem get_logs_parse_failure_counterexample :
    statusIsSuccess 200 = true ∧
    get_logs (.ok { status := 200, jsonBody := .error "EOF while parsing" })
      = .error "EOF while parsing" := by
  exact ⟨rfl, rfl⟩

/-- C8 amended: `get_logs` returns `Ok` exactly when the request went
through, the status is a success and the body parses as JSON; `clear_logs`
returns `Ok` exactly when the request went through and the status is a
success. -/
theorem logs_commands_status (resp : Except String HttpResp) :
    ((∃ v, get_logs resp = .ok v) ↔
      ∃ r, resp = .ok r ∧ statusIsSuccess r.status = true ∧ ∃ v, r.jsonBody = .ok v)
    ∧ ((clear_logs resp = .ok ()) ↔
      ∃ r, resp = .ok r ∧ statusIsSuccess r.status = true) := by
  cases resp with
  | error e => simp [get_logs, clear_logs]
  | ok r =>
      by_cases h : statusIsSuccess r.status <;>
        cases hj : r.jsonBody <;>
          simp [get_logs, clear_logs, h, hj]

/-- A probe round over ports whose requests each respect the 1 s client
timeout takes at most 1000 ms per port. -/
theorem probeRound_dur_le (net : Net) (it : Nat) (l : List Nat)
    (h : ∀ p, net.dur it p ≤ 1000) :
    (probeRound net it l).2 ≤ 1000 * l.length := by
  induction l with
  | nil => simp [probeRound]
  | cons p rest ih =>
      have hp := h p
      by_cases hok : net.ok it p <;>
        simp [probeRound, hok, List.length_cons, Nat.mul_succ] <;> omega

/-- Invariant of the polling loop: entered with at most one sleep past the
timeout, it finishes with elapsed time at most the timeout plus one sleep
plus one full probe round (4 ports × 1000 ms). -/
theorem pollLoop_elapsed_le (net : Net) (timeout : Nat)
    (hd : ∀ it p, net.dur it p ≤ 1000) :
    ∀ n it elapsed, timeout + 1 - elapsed ≤ n → elapsed ≤ timeout + 500 →
      (pollLoop net timeout it elapsed).2 ≤ timeout + 4500 := by
  intro n
  induction n with
  | zero =>
      intro it elapsed hn he
      have hr := probeRound_dur_le net it pollPorts (hd it)
      have hlen : pollPorts.length = 4 := rfl
      rw [hlen] at hr
      rw [pollLoop.eq_def]
      split
      · show elapsed + (probeRound net it pollPorts).2 ≤ timeout + 4500
        omega
      · split
        · show elapsed + (probeRound net it pollPorts).2 ≤ timeout + 4500
          omega
        · exfalso; omega
  | succ n ih =>
      intro it elapsed hn he
      have hr := probeRound_dur_le net it pollPorts (hd it)
      have hlen : pollPorts.length = 4 := rfl
      rw [hlen] at hr
      rw [pollLoop.eq_def]
      split
      · show elapsed + (probeRound net it pollPorts).2 ≤ timeout + 4500
        omega
      · split
        · show elapsed + (probeRound net it pollPorts).2 ≤ timeout + 4500
          omega
        · exact ih (it + 1) (elapsed + (probeRound net it pollPorts).2 + 500)
            (by omega) (by omega)

/-- C5 amended: as long as every probe respects its 1 s request timeout, the
readiness loop terminates with total polling time at most the 30 s bound plus
one 500 ms sleep plus one full probe round over the four candidate ports
(4 × 1 s), i.e. at most 34 500 ms. -/
theorem poll_terminates_within_bound (net : Net)
    (hd : ∀ it p, net.dur it p ≤ 1000) :
    (pollLoop net 30000 0 0).2 ≤ 30000 + 500 + 4 * 1000 := by
  have := pollLoop_elapsed_le net 30000 hd 30001 0 0 (by omega) (by omega)
  omega

/-- Witness for `poll_terminates_within_bound` at a network that never
answers and whose probes return instantly. -/
theorem poll_terminates_within_bound_witness :
    (∀ it p, netDown.dur it p ≤ 1000)
    ∧ (pollLoop netDown 30000 0 0).2 ≤ 30000 + 500 + 4 * 1000 :=
  ⟨fun _ _ => Nat.zero_le 1000,
   poll_terminates_within_bound netDown (fun _ _ => Nat.zero_le 1000)⟩

/-- Unfolding step of the loop: with no hit and the elapsed time within the
timeout at the check, the loop sleeps 500 ms and continues. -/
theorem pollLoop_continue (net : Net) (timeout it elapsed r2 : Nat)
    (h1 : probeRound net it pollPorts = (none, r2))
    (h2 : elapsed + r2 ≤ timeout) :
    pollLoop net timeout it elapsed
      = pollLoop net timeout (it + 1) (elapsed + r2 + 500) := by
  rw [pollLoop.eq_def, h1]
  simp [Nat.not_lt.mpr h2]

/-- Unfolding step of the loop: with no hit and the elapsed time past the
timeout at the check, the loop exits with the flag unset. -/
theorem pollLoop_timeout_exit (net : Net) (timeout it elapsed r2 : Nat)
    (h1 : probeRound net it pollPorts = (none, r2))
    (h2 : timeout < elapsed + r2) :
    pollLoop net timeout it elapsed = (false, elapsed + r2) := by
  rw [pollLoop.eq_def, h1]
  simp [h2]

/-- C5 counterexample: a run in which every probe respects the 1 s request
timeout but the loop spends 34 500 ms — more than the timeout plus one poll
interval read as 500 ms plus a single probe (31 500 ms).  The loop is at
30 000 ms exactly when it checks the timeout, so it sleeps once more and pays
a full four-port probe round before exiting. -/
theorem poll_overshoot_counterexample :
    (∀ it p, cexNet.dur it p ≤ 1000)
    ∧ (pollLoop cexNet 30000 0 0).2 = 34500
    ∧ 30000 + 500 + 1000 < 34500 := by
  refine ⟨fun it p => ?_, ?_, by omega⟩
  · simp only [cexNet]
    split <;> omega
  · have h0 : ∀ it, it ≠ 6 → probeRound cexNet it pollPorts = (none, 4000) := by
      intro it h
      simp [probeRound, pollPorts, cexNet, h]
    have h6 : probeRound cexNet 6 pollPorts = (none, 3000) := by
      norm_num [probeRound, pollPorts, cexNet]
    have s0 := pollLoop_continue cexNet 30000 0 0 4000 (h0 0 (by decide)) (by norm_num)
    have s1 := pollLoop_continue cexNet 30000 1 4500 4000 (h0 1 (by decide)) (by norm_num)
    have s2 := pollLoop_continue cexNet 30000 2 9000 4000 (h0 2 (by decide)) (by norm_num)
    have s3 := pollLoop_continue cexNet 30000 3 13500 4000 (h0 3 (by decide)) (by norm_num)
    have s4 := pollLoop_continue cexNet 30000 4 18000 4000 (h0 4 (by decide)) (by norm_num)
    have s5 := pollLoop_continue cexNet 30000 5 22500 4000 (h0 5 (by decide)) (by norm_num)
    have s6 := pollLoop_continue cexNet 30000 6 27000 3000 h6 (by norm_num)
    have s7 := pollLoop_timeout_exit cexNet 30000 7 30500 4000 (h0 7 (by decide)) (by norm_num)
    rw [s0]
    norm_num at s1 s2 s3 s4 s5 s6 s7 ⊢
    rw [s1, s2, s3, s4, s5, s6, s7]

/-- With no port ever answering, no probe round reports a hit. -/
theorem probeRound_no_hit (net : Net) (it : Nat)
    (hok : ∀ p, net.ok it p = false) :
    ∀ l : List Nat, (probeRound net it l).1 = none := by
  intro l
  induction l with
  | nil => rfl
  | cons p rest ih => simp [probeRound, hok p, ih]

/-- With no port ever answering, the polling loop finishes with the readiness
flag still false. -/
theorem pollLoop_flag_stays_false (net : Net) (timeout : Nat)
    (hok : ∀ it p, net.ok it p = false) :
    ∀ n it elapsed, timeout + 1 - elapsed ≤ n →
      (pollLoop net timeout it elapsed).1 = false := by
  intro n
  induction n with
  | zero =>
      intro it elapsed hn
      rw [pollLoop.eq_def]
      split
      · rename_i hsome
        rw [probeRound_no_hit net it (hok it) pollPorts] at hsome
        simp at hsome
      · split
        · rfl
        · exfalso; omega
  | succ n ih =>
      intro it elapsed hn
      rw [pollLoop.eq_def]
      split
      · rename_i hsome
        rw [probeRound_no_hit net it (hok it) pollPorts] at hsome
        simp at hsome
      · split
        · rfl
        · exact ih (it + 1) (elapsed + (probeRound net it pollPorts).2 + 500)
            (by omega)

/-- C10: when no candidate port ever answers with a success status, the
polling loop exits with the shared readiness flag still false, and the host's
startup wait — which spins until that flag is true — never exits, for any
number of checks. -/
theorem poll_failure_blocks_startup (net : Net)
    (hok : ∀ it p, net.ok it p = false) :
    (pollLoop net 30000 0 0).1 = false
    ∧ ∀ n, waitLoopExits false n = false := by
  refine ⟨pollLoop_flag_stays_false net 30000 hok 30001 0 0 (by omega), ?_⟩
  intro n
  induction n with
  | zero => rfl
  | succ n ih => simp [waitLoopExits, ih]

/-- Witness for `poll_failure_blocks_startup` at the concrete dead network. -/
theorem poll_failure_blocks_startup_witness :
    (∀ it p, netDown.ok it p = false)
    ∧ ((pollLoop netDown 30000 0 0).1 = false
       ∧ ∀ n, waitLoopExits false n = false) :=
  ⟨fun _ _ => rfl, poll_failure_blocks_startup netDown (fun _ _ => rfl)⟩
